import Mathlib

/-!
# Safarnama expense-ledger consistency: a shallow embedding

This file embeds the expense-ledger core of the Safarnama travel app:

* the SQL schema and trigger/procedure layer (`trips`, `expenses`,
  `update_trip_total_expenses`, `update_expense_with_total`,
  `batch_add_expenses`, `generate_trip_number`);
* the client service layer (`optimizedExpenseService` with its RPC-first /
  manual-fallback structure, `cachedExpenseService` operation cache,
  `tripService.updateTrip`);
* the optimistic mutation coordinator (`useOptimizedTripManager`:
  optimistic apply and rollback closures for add/update/delete).

Amounts (SQL `DECIMAL(10,2)`, JS `number`) are modelled as exact rationals;
generated UUID keys are modelled by a monotone `nextId` counter on the
database state.
-/

namespace Safarnama

/-- The `expenses.category` CHECK constraint of the schema. -/
def validCategory (c : String) : Bool :=
  c == "transport" || c == "food" || c == "accommodation" ||
    c == "entertainment" || c == "other"

/-- The `trips.status` CHECK constraint of the schema. -/
def validStatus (s : String) : Bool :=
  s == "planning" || s == "in_progress" || s == "completed"

/-- A row of the `expenses` table. -/
structure ExpenseRow where
  id : Nat
  trip_id : Nat
  user_id : Nat
  description : String
  amount : ℚ
  category : String
  date : String
  time : String
deriving Repr, DecidableEq

/-- A row of the `trips` table. -/
structure TripRow where
  id : Nat
  user_id : Nat
  trip_number : String
  origin : String
  destination : String
  travel_mode : String
  date : String
  time : String
  notes : String
  travelers : List String
  total_expenses : ℚ
  status : String
deriving Repr, DecidableEq

/-- The database state: the two row sets plus the key generator
(`uuid_generate_v4` modelled as a fresh-id counter). -/
structure DB where
  nextId : Nat
  trips : List TripRow
  expenses : List ExpenseRow
deriving Repr, DecidableEq

/-- `SELECT COALESCE(SUM(amount), 0) FROM expenses WHERE trip_id = tid`:
the sum an expense list assigns to one trip (0 for the empty set). -/
def expenseSum (es : List ExpenseRow) (tid : Nat) : ℚ :=
  ((es.filter (fun e => e.trip_id == tid)).map (fun e => e.amount)).sum

/-- The trigger function `update_trip_total_expenses`: after any row change
on `expenses`, re-sum the affected trip's expenses in full and store the
result on that trip (not an incremental delta). -/
def update_trip_total_expenses (db : DB) (tid : Nat) : DB :=
  { db with
    trips := db.trips.map (fun t =>
      if t.id == tid then { t with total_expenses := expenseSum db.expenses tid } else t) }

/-- The insertable field set of an expense (`INSERT INTO expenses` columns
besides the generated id and the keys). -/
structure ExpenseFields where
  description : String
  amount : ℚ
  category : String
  date : String
  time : String
deriving Repr, DecidableEq

/-- A partial `UPDATE` payload for an expense: `none` = field not supplied
(SQL `NULL` parameter / JS `undefined`). -/
structure ExpenseUpdates where
  description : Option String
  amount : Option ℚ
  category : Option String
  date : Option String
  time : Option String
deriving Repr, DecidableEq

/-- `COALESCE(p_field, field)` applied to every updatable column of an
expense row, as in `update_expense_with_total`. -/
def coalesceUpdate (u : ExpenseUpdates) (e : ExpenseRow) : ExpenseRow :=
  { e with
    description := u.description.getD e.description
    amount := u.amount.getD e.amount
    category := u.category.getD e.category
    date := u.date.getD e.date
    time := u.time.getD e.time }

/-- `INSERT INTO expenses ... RETURNING id`, followed by the AFTER INSERT
trigger firing `update_trip_total_expenses` for the new row's trip. -/
def insert_expense (db : DB) (tid uid : Nat) (f : ExpenseFields) : DB :=
  let row : ExpenseRow :=
    { id := db.nextId, trip_id := tid, user_id := uid, description := f.description,
      amount := f.amount, category := f.category, date := f.date, time := f.time }
  let db1 : DB := { db with nextId := db.nextId + 1, expenses := db.expenses ++ [row] }
  update_trip_total_expenses db1 tid

/-- `UPDATE expenses SET ... WHERE id = eid`, followed by the AFTER UPDATE
trigger recomputing the affected trip (`COALESCE(NEW.trip_id, OLD.trip_id)`).
If no row matches, no trigger fires. -/
def update_expense_rows (db : DB) (eid : Nat) (u : ExpenseUpdates) : DB :=
  match db.expenses.find? (fun e => e.id == eid) with
  | none => db
  | some e0 =>
    let db1 : DB :=
      { db with expenses := db.expenses.map (fun e => if e.id == eid then coalesceUpdate u e else e) }
    update_trip_total_expenses db1 e0.trip_id

/-- `DELETE FROM expenses WHERE id = eid`, followed by the AFTER DELETE
trigger recomputing the deleted row's trip (`OLD.trip_id`). -/
def delete_expense_rows (db : DB) (eid : Nat) : DB :=
  match db.expenses.find? (fun e => e.id == eid) with
  | none => db
  | some e0 =>
    let db1 : DB := { db with expenses := db.expenses.filter (fun e => !(e.id == eid)) }
    update_trip_total_expenses db1 e0.trip_id

/-- One expense mutation as seen by the ledger store. -/
inductive Mutation where
  | insert (tid uid : Nat) (f : ExpenseFields)
  | update (eid : Nat) (u : ExpenseUpdates)
  | delete (eid : Nat)
deriving Repr

/-- Apply one mutation (the row change plus its trigger). -/
def applyMutation (db : DB) : Mutation → DB
  | .insert tid uid f => insert_expense db tid uid f
  | .update eid u => update_expense_rows db eid u
  | .delete eid => delete_expense_rows db eid

/-- Apply a settled sequence of mutations in order. -/
def applyMutations (db : DB) (ms : List Mutation) : DB :=
  ms.foldl applyMutation db

/-- Every expense id was drawn from the key generator. -/
def IdsFresh (db : DB) : Prop :=
  ∀ e ∈ db.expenses, e.id < db.nextId

/-- Expense ids are pairwise distinct (the primary key). -/
def IdsNodup (db : DB) : Prop :=
  (db.expenses.map (fun e => e.id)).Nodup

/-- The ledger invariant: every trip's stored total is the full sum of the
expense rows carrying its id. -/
def TotalsCorrect (db : DB) : Prop :=
  ∀ t ∈ db.trips, t.total_expenses = expenseSum db.expenses t.id

/-- Well-formed database state. -/
def WF (db : DB) : Prop :=
  IdsFresh db ∧ IdsNodup db ∧ TotalsCorrect db

instance decidableIdsFresh (db : DB) : Decidable (IdsFresh db) :=
  inferInstanceAs (Decidable (∀ e ∈ db.expenses, e.id < db.nextId))

instance decidableIdsNodup (db : DB) : Decidable (IdsNodup db) :=
  inferInstanceAs (Decidable ((db.expenses.map (fun e : ExpenseRow => e.id)).Nodup))

instance decidableTotalsCorrect (db : DB) : Decidable (TotalsCorrect db) :=
  inferInstanceAs
    (Decidable (∀ t ∈ db.trips, t.total_expenses = expenseSum db.expenses t.id))

instance decidableWF (db : DB) : Decidable (WF db) :=
  inferInstanceAs (Decidable (IdsFresh db ∧ IdsNodup db ∧ TotalsCorrect db))

/-- A concrete starting state used to witness the ledger invariant:
one user, one trip with no expenses. -/
def dbC1 : DB :=
  { nextId := 10
    trips := [{ id := 1, user_id := 7, trip_number := "TR001", origin := "Agra",
                destination := "Delhi", travel_mode := "car", date := "2024-01-01",
                time := "09:00", notes := "", travelers := [], total_expenses := 0,
                status := "planning" }]
    expenses := [] }

/-- A concrete mutation sequence used to witness the ledger invariant. -/
def msC1 : List Mutation :=
  [ .insert 1 7 { description := "fuel", amount := 120, category := "transport",
                  date := "2024-01-01", time := "10:00" },
    .insert 1 7 { description := "lunch", amount := 45, category := "food",
                  date := "2024-01-01", time := "13:00" },
    .update 10 { description := none, amount := some 200, category := none,
                 date := none, time := none },
    .delete 11 ]

/-- Result payload of the stored procedure `update_expense_with_total`
(the json_build_object it returns).  `new_total` is `none` when the
`SELECT total_expenses INTO new_total` finds no trip row. -/
structure UpdateExpenseTotalResult where
  description : String
  amount : ℚ
  category : String
  date : String
  time : String
  new_total : Option ℚ
  trip_id : Nat
deriving Repr, DecidableEq

/-- The stored procedure `update_expense_with_total`: verify that the
expense belongs to the caller (exception otherwise), COALESCE-update the
supplied fields, let the AFTER UPDATE trigger recompute the owning trip's
total, then read that total back.  Returns the post-state with the result. -/
def update_expense_with_total (db : DB) (eid uid : Nat) (u : ExpenseUpdates) :
    Except String (DB × UpdateExpenseTotalResult) :=
  match db.expenses.find? (fun e => e.id == eid && e.user_id == uid) with
  | none => .error "Expense not found or access denied"
  | some e0 =>
    let db1 : DB :=
      { db with expenses := db.expenses.map (fun e =>
          if e.id == eid && e.user_id == uid then coalesceUpdate u e else e) }
    let db2 := update_trip_total_expenses db1 e0.trip_id
    let updated := coalesceUpdate u e0
    .ok (db2,
      { description := updated.description, amount := updated.amount,
        category := updated.category, date := updated.date, time := updated.time,
        new_total := (db2.trips.find? (fun t => t.id == e0.trip_id)).map
          (fun t => t.total_expenses),
        trip_id := e0.trip_id })

/-- The row-level CHECK of the `expenses` table that an inserted row can
violate: the category enumeration. -/
def validExpenseFields (f : ExpenseFields) : Bool :=
  validCategory f.category

/-- One iteration of the `batch_add_expenses` loop: insert the row (raising
on a CHECK violation, which aborts the surrounding transaction) and let the
AFTER INSERT trigger recompute the trip total.  The `Nat` component counts
trigger recomputations. -/
def batchInsertStep (tid uid : Nat) (acc : Except String (DB × List ExpenseRow × Nat))
    (f : ExpenseFields) : Except String (DB × List ExpenseRow × Nat) :=
  match acc with
  | .error m => .error m
  | .ok (db, ins, n) =>
    if validExpenseFields f then
      let row : ExpenseRow :=
        { id := db.nextId, trip_id := tid, user_id := uid, description := f.description,
          amount := f.amount, category := f.category, date := f.date, time := f.time }
      .ok (insert_expense db tid uid f, ins ++ [row], n + 1)
    else .error "new row violates check constraint"

/-- The stored procedure `batch_add_expenses`: verify trip ownership, insert
every row in the loop (each firing the trigger), then read the trip total
once at the end.  The whole body runs in one transaction: an error returns
no state, leaving the caller's database unchanged.  The final `Nat` is the
number of trigger recomputations performed. -/
def batch_add_expenses (db : DB) (tid uid : Nat) (rows : List ExpenseFields) :
    Except String (DB × List ExpenseRow × Option ℚ × Nat) :=
  if (db.trips.find? (fun t => t.id == tid && t.user_id == uid)).isSome then
    match rows.foldl (batchInsertStep tid uid) (.ok (db, [], 0)) with
    | .error m => .error m
    | .ok (db2, ins, n) =>
      .ok (db2, ins,
        (db2.trips.find? (fun t => t.id == tid)).map (fun t => t.total_expenses), n)
  else .error "Trip not found or access denied"

/-- The recomputation count of a batch result (0 for a rejected batch). -/
def batchRecomputations (r : Except String (DB × List ExpenseRow × Option ℚ × Nat)) : Nat :=
  match r with
  | .error _ => 0
  | .ok (_, _, _, n) => n

/-- Postgres `LPAD(s, n, c)`. -/
def lpad (s : String) (n : Nat) (c : Char) : String :=
  if s.length < n then String.mk (List.replicate (n - s.length) c) ++ s
  else (s.toList.take n).asString

/-- The SQL function `generate_trip_number`: `COUNT(*) + 1` over the user's
current trips, rendered as `TR` plus a three-digit zero-padded ordinal. -/
def generate_trip_number (db : DB) (uid : Nat) : String :=
  let trip_count := (db.trips.filter (fun t => t.user_id == uid)).length + 1
  "TR" ++ lpad (toString trip_count) 3 '0'

/-- The insertable fields of a trip (`tripService.createTrip` payload). -/
structure TripFields where
  origin : String
  destination : String
  travel_mode : String
  date : String
  time : String
  notes : String
  travelers : List String
  status : String
deriving Repr, DecidableEq

/-- `tripService.createTrip`: generate the trip number for the caller, then
insert the trip row (generated id, total defaulted to 0). -/
def createTrip (db : DB) (uid : Nat) (f : TripFields) : DB × TripRow :=
  let tn := generate_trip_number db uid
  let row : TripRow :=
    { id := db.nextId, user_id := uid, trip_number := tn, origin := f.origin,
      destination := f.destination, travel_mode := f.travel_mode, date := f.date,
      time := f.time, notes := f.notes, travelers := f.travelers,
      total_expenses := 0, status := f.status }
  ({ db with nextId := db.nextId + 1, trips := db.trips ++ [row] }, row)

/-- `tripService.deleteTrip`: delete the caller's trip row; the
`ON DELETE CASCADE` foreign key removes the trip's expense rows. -/
def deleteTrip (db : DB) (uid tid : Nat) : DB :=
  if (db.trips.find? (fun t => t.id == tid && t.user_id == uid)).isSome then
    { db with
      trips := db.trips.filter (fun t => !(t.id == tid && t.user_id == uid)),
      expenses := db.expenses.filter (fun e => !(e.trip_id == tid)) }
  else db

/-- The `Partial TripRow` update payload of `tripService.updateTrip`. -/
structure TripUpdates where
  origin : Option String
  destination : Option String
  travelMode : Option String
  date : Option String
  time : Option String
  notes : Option String
  travelers : Option (List String)
  status : Option String
deriving Repr, DecidableEq

/-- JS truthiness of an optional string (`if (updates.origin) ...`):
present and non-empty. -/
def truthy (o : Option String) : Bool :=
  match o with
  | some s => !(s == "")
  | none => false

/-- The column assignment built by `tripService.updateTrip`: string fields
are applied when truthy, `notes` when defined (`!== undefined`), and
`travelers` when defined (an array is always truthy). -/
def applyTripUpdates (u : TripUpdates) (t : TripRow) : TripRow :=
  { t with
    origin := if truthy u.origin then u.origin.getD t.origin else t.origin
    destination := if truthy u.destination then u.destination.getD t.destination
      else t.destination
    travel_mode := if truthy u.travelMode then u.travelMode.getD t.travel_mode
      else t.travel_mode
    date := if truthy u.date then u.date.getD t.date else t.date
    time := if truthy u.time then u.time.getD t.time else t.time
    notes := u.notes.getD t.notes
    travelers := u.travelers.getD t.travelers
    status := if truthy u.status then u.status.getD t.status else t.status }

/-- `tripService.updateTrip`: apply the assignment to the caller's trip row;
the database CHECK constraint rejects the statement when an updated row
would carry a status outside the enumeration. -/
def updateTrip (db : DB) (uid tid : Nat) (u : TripUpdates) : Except String DB :=
  if db.trips.all (fun t =>
      !(t.id == tid && t.user_id == uid) || validStatus (applyTripUpdates u t).status) then
    .ok { db with trips := db.trips.map (fun t =>
      if t.id == tid && t.user_id == uid then applyTripUpdates u t else t) }
  else .error "new row violates check constraint on status"

/-- The position of a status in the lifecycle order
planning, in_progress, completed (spec vocabulary for "forward"). -/
def statusRank (s : String) : Nat :=
  if s == "planning" then 0 else if s == "in_progress" then 1 else 2

/-- The client-side `Expense` interface (ids are strings: UUIDs or
`temp-` placeholders). -/
structure Expense where
  id : String
  description : String
  amount : ℚ
  category : String
  date : String
  time : String
deriving Repr, DecidableEq

/-- The client-side `Trip` interface held by the coordinator's state. -/
structure Trip where
  id : String
  tripNumber : String
  origin : String
  destination : String
  travelMode : String
  date : String
  time : String
  notes : String
  travelers : List String
  expenses : List Expense
  totalExpenses : ℚ
  status : String
  createdAt : String
  updatedAt : String
deriving Repr, DecidableEq

/-- The optimistic-apply closure of the coordinator's `addExpense`: append
the placeholder record, add its amount to the total, refresh `updatedAt`. -/
def addExpenseOptimistic (tempExpense : Expense) (now : String) (trip : Trip) : Trip :=
  { trip with
    expenses := trip.expenses ++ [tempExpense]
    totalExpenses := trip.totalExpenses + tempExpense.amount
    updatedAt := now }

/-- The rollback closure of the coordinator's `addExpense` on failure: drop
every record carrying the placeholder id and subtract the amount back out. -/
def addExpenseRollback (tempId : String) (amount : ℚ) (trip : Trip) : Trip :=
  { trip with
    expenses := trip.expenses.filter (fun exp => !(exp.id == tempId))
    totalExpenses := trip.totalExpenses - amount }

/-- JS object spread `{ ...exp, ...updates }` of a partial expense-update
payload (the five updatable fields) onto a client expense record. -/
def spreadUpdates (u : ExpenseUpdates) (e : Expense) : Expense :=
  { e with
    description := u.description.getD e.description
    amount := u.amount.getD e.amount
    category := u.category.getD e.category
    date := u.date.getD e.date
    time := u.time.getD e.time }

/-- The optimistic-apply closure of the coordinator's `updateExpense`:
spread the updates onto the target record and shift the total by the
amount delta. -/
def updateExpenseOptimistic (expenseId : String) (u : ExpenseUpdates) (totalDiff : ℚ)
    (now : String) (trip : Trip) : Trip :=
  { trip with
    expenses := trip.expenses.map (fun exp =>
      if exp.id == expenseId then spreadUpdates u exp else exp)
    totalExpenses := trip.totalExpenses + totalDiff
    updatedAt := now }

/-- The rollback closure of the coordinator's `updateExpense` on failure:
put the captured pre-mutation record back in place and restore the captured
pre-mutation total verbatim. -/
def updateExpenseRollback (expenseId : String) (originalExpense : Expense)
    (originalTotal : ℚ) (trip : Trip) : Trip :=
  { trip with
    expenses := trip.expenses.map (fun exp =>
      if exp.id == expenseId then originalExpense else exp)
    totalExpenses := originalTotal }

/-- `CACHE_TIMEOUT` of the operation cache (milliseconds). -/
def CACHE_TIMEOUT : Nat := 1000

/-- An `operationCache` entry: key, issued operation identifier, and the
instant at which the `setTimeout` cleanup deletes the entry. -/
structure CacheEntry where
  key : String
  opId : Nat
  expiry : Nat
deriving Repr, DecidableEq

/-- The state of `cachedExpenseService`: the operation cache plus the list
of operations actually issued to the backend (the durable effects). -/
structure CacheState where
  entries : List CacheEntry
  nextOpId : Nat
  issued : List Nat
deriving Repr, DecidableEq

/-- `operationCache.has/get` at wall-clock time `t`: an entry answers only
until its cleanup timer fires. -/
def cacheLookup (st : CacheState) (key : String) (t : Nat) : Option Nat :=
  (st.entries.find? (fun en => en.key == key && decide (t < en.expiry))).map
    (fun en => en.opId)

/-- A `cachedExpenseService` mutation call with cache key `key` at time `t`:
return the in-flight operation when the key is cached, otherwise issue a
fresh operation and cache it for `CACHE_TIMEOUT` milliseconds. -/
def cachedCall (st : CacheState) (key : String) (t : Nat) : Nat × CacheState :=
  match cacheLookup st key t with
  | some op => (op, st)
  | none =>
    (st.nextOpId,
      { entries := { key := key, opId := st.nextOpId, expiry := t + CACHE_TIMEOUT }
          :: st.entries
        nextOpId := st.nextOpId + 1
        issued := st.issued ++ [st.nextOpId] })

/-- The cache key of `cachedExpenseService.addExpense`:
`add-` + trip id + serialized payload. -/
def addCacheKey (tripId serializedExpense : String) : String :=
  "add-" ++ tripId ++ "-" ++ serializedExpense

/-- The cache key of `cachedExpenseService.updateExpense`. -/
def updateCacheKey (expenseId serializedUpdates : String) : String :=
  "update-" ++ expenseId ++ "-" ++ serializedUpdates

/-- The cache key of `cachedExpenseService.deleteExpense`. -/
def deleteCacheKey (expenseId : String) : String :=
  "delete-" ++ expenseId

/-- Result shape of the service-layer add: the created expense and the new
trip total. -/
structure AddExpenseResult where
  expense : Expense
  newTotal : ℚ
deriving Repr, DecidableEq

/-- Result shape of the service-layer update. -/
structure UpdateExpenseResult where
  expense : Expense
  newTotal : ℚ
  tripId : String
deriving Repr, DecidableEq

/-- Result shape of the service-layer delete. -/
structure DeleteExpenseResult where
  newTotal : ℚ
  tripId : String
deriving Repr, DecidableEq

/-- `optimizedExpenseService.addExpenseManual`, parametrized by the outcomes
of its two round trips: the expense insert and the follow-up read of the
trip's stored total.  A failed insert propagates as an error; a failed total
read is only logged, and the returned total falls back to the payload's own
amount. -/
def addExpenseManual (expense : ExpenseFields) (insertResult : Except String Expense)
    (tripRead : Except String ℚ) : Except String AddExpenseResult :=
  match insertResult with
  | .error m => .error ("Failed to add expense: " ++ m)
  | .ok row =>
    .ok { expense := row
          newTotal := match tripRead with
            | .ok tot => tot
            | .error _ => expense.amount }

/-- `optimizedExpenseService.updateExpenseManual`: on a failed total read
the returned total falls back to the updated row's amount. -/
def updateExpenseManual (updateResult : Except String (Expense × String))
    (tripRead : Except String ℚ) : Except String UpdateExpenseResult :=
  match updateResult with
  | .error m => .error ("Failed to update expense: " ++ m)
  | .ok (row, tripId) =>
    .ok { expense := row
          newTotal := match tripRead with
            | .ok tot => tot
            | .error _ => row.amount
          tripId := tripId }

/-- `optimizedExpenseService.deleteExpenseManual`: on a failed total read
the returned total falls back to 0. -/
def deleteExpenseManual (fetchResult : Except String String)
    (deleteResult : Except String Unit) (tripRead : Except String ℚ) :
    Except String DeleteExpenseResult :=
  match fetchResult with
  | .error m => .error ("Failed to fetch expense details: " ++ m)
  | .ok tripId =>
    match deleteResult with
    | .error m => .error ("Failed to delete expense: " ++ m)
    | .ok _ =>
      .ok { newTotal := match tripRead with
              | .ok tot => tot
              | .error _ => 0
            tripId := tripId }

/-- `optimizedExpenseService.addExpenseOptimized`: try the atomic RPC; on an
RPC error fall back to the manual path once, returning whatever it returns.
The `Nat` counts manual-path invocations. -/
def addExpenseOptimized (rpcResult : Except String AddExpenseResult)
    (expense : ExpenseFields) (insertResult : Except String Expense)
    (tripRead : Except String ℚ) : Except String AddExpenseResult × Nat :=
  match rpcResult with
  | .ok r => (.ok r, 0)
  | .error _ => (addExpenseManual expense insertResult tripRead, 1)

/-- `optimizedExpenseService.updateExpenseOptimized`: same RPC-first,
manual-fallback-once structure. -/
def updateExpenseOptimized (rpcResult : Except String UpdateExpenseResult)
    (updateResult : Except String (Expense × String))
    (tripRead : Except String ℚ) : Except String UpdateExpenseResult × Nat :=
  match rpcResult with
  | .ok r => (.ok r, 0)
  | .error _ => (updateExpenseManual updateResult tripRead, 1)

/-- `optimizedExpenseService.deleteExpenseOptimized`: same RPC-first,
manual-fallback-once structure. -/
def deleteExpenseOptimized (rpcResult : Except String DeleteExpenseResult)
    (fetchResult : Except String String) (deleteResult : Except String Unit)
    (tripRead : Except String ℚ) : Except String DeleteExpenseResult × Nat :=
  match rpcResult with
  | .ok r => (.ok r, 0)
  | .error _ => (deleteExpenseManual fetchResult deleteResult tripRead, 1)

/-- An in-memory expense already carrying a `temp-` placeholder id. -/
def earlierTempC2 : Expense :=
  { id := "temp-5", description := "earlier placeholder", amount := 3,
    category := "other", date := "2024-01-01", time := "08:00" }

/-- A trip that already holds a record carrying the very placeholder id a
colliding `Date.now()` would generate again (two adds in one millisecond). -/
def tripC2 : Trip :=
  { id := "trip-1", tripNumber := "TR001", origin := "Agra", destination := "Delhi",
    travelMode := "car", date := "2024-01-01", time := "09:00", notes := "",
    travelers := [],
    expenses := [earlierTempC2],
    totalExpenses := 3, status := "planning", createdAt := "c1", updatedAt := "u1" }

/-- A placeholder expense whose id collides with the one in `tripC2`. -/
def tempC2 : Expense :=
  { id := "temp-5", description := "snack", amount := 2, category := "food",
    date := "2024-01-01", time := "10:00" }

/-- A placeholder expense whose id is fresh for `tripC2`. -/
def tempC2fresh : Expense :=
  { id := "temp-9", description := "snack", amount := 2, category := "food",
    date := "2024-01-01", time := "10:00" }

/-- A trip with two expenses, used to witness update rollback. -/
def tripC3 : Trip :=
  { id := "trip-1", tripNumber := "TR001", origin := "Agra", destination := "Delhi",
    travelMode := "car", date := "2024-01-01", time := "09:00", notes := "",
    travelers := [],
    expenses := [
      { id := "e1", description := "fuel", amount := 10, category := "transport",
        date := "2024-01-01", time := "10:00" },
      { id := "e2", description := "lunch", amount := 7, category := "food",
        date := "2024-01-01", time := "13:00" }],
    totalExpenses := 17, status := "in_progress", createdAt := "c1", updatedAt := "u1" }

/-- The pre-mutation record of expense `e1` in `tripC3`. -/
def origC3 : Expense :=
  { id := "e1", description := "fuel", amount := 10, category := "transport",
    date := "2024-01-01", time := "10:00" }

/-- A partial update payload changing only the amount. -/
def updC3 : ExpenseUpdates :=
  { description := none, amount := some 50, category := none, date := none,
    time := none }

/-- The empty operation-cache state. -/
def stC4 : CacheState :=
  { entries := [], nextOpId := 0, issued := [] }

/-- A database with one trip and one expense, used to witness the partial
update procedure. -/
def dbC5 : DB :=
  { nextId := 10
    trips := [{ id := 1, user_id := 7, trip_number := "TR001", origin := "Agra",
                destination := "Delhi", travel_mode := "car", date := "2024-01-01",
                time := "09:00", notes := "", travelers := [], total_expenses := 5,
                status := "planning" }]
    expenses := [{ id := 2, trip_id := 1, user_id := 7, description := "fuel",
                   amount := 5, category := "transport", date := "2024-01-01",
                   time := "10:00" }] }

/-- A partial update payload for the `dbC5` expense: only the amount. -/
def uC5 : ExpenseUpdates :=
  { description := none, amount := some 9, category := none, date := none,
    time := none }

/-- A database with one empty trip, used for batch insertion. -/
def dbC6 : DB :=
  { nextId := 10
    trips := [{ id := 1, user_id := 7, trip_number := "TR001", origin := "Agra",
                destination := "Delhi", travel_mode := "car", date := "2024-01-01",
                time := "09:00", notes := "", travelers := [], total_expenses := 0,
                status := "planning" }]
    expenses := [] }

/-- A two-row, fully valid batch payload. -/
def rowsC6 : List ExpenseFields :=
  [{ description := "fuel", amount := 1, category := "transport",
     date := "2024-01-01", time := "10:00" },
   { description := "lunch", amount := 2, category := "food",
     date := "2024-01-01", time := "13:00" }]

/-- The empty database of a brand-new user. -/
def db0C8 : DB :=
  { nextId := 1, trips := [], expenses := [] }

/-- A trip-creation payload. -/
def fC8 : TripFields :=
  { origin := "Agra", destination := "Delhi", travel_mode := "car",
    date := "2024-01-01", time := "09:00", notes := "", travelers := [],
    status := "planning" }

/-- Create two trips for user 7, delete the first, create a third. -/
def dbC8final : DB :=
  (createTrip (deleteTrip ((createTrip ((createTrip db0C8 7 fC8).1) 7 fC8).1) 7 1)
    7 fC8).1

/-- A database holding one completed trip of user 7. -/
def dbC9 : DB :=
  { nextId := 2
    trips := [{ id := 1, user_id := 7, trip_number := "TR001", origin := "Agra",
                destination := "Delhi", travel_mode := "car", date := "2024-01-01",
                time := "09:00", notes := "", travelers := [], total_expenses := 0,
                status := "completed" }]
    expenses := [] }

/-- A trip update requesting the status `planning` (a backward move). -/
def uC9 : TripUpdates :=
  { origin := none, destination := none, travelMode := none, date := none,
    time := none, notes := none, travelers := none, status := some "planning" }

/-- The database `updateTrip` produces from `dbC9` under `uC9`. -/
def dbC9res : DB :=
  { nextId := 2
    trips := [{ id := 1, user_id := 7, trip_number := "TR001", origin := "Agra",
                destination := "Delhi", travel_mode := "car", date := "2024-01-01",
                time := "09:00", notes := "", travelers := [], total_expenses := 0,
                status := "planning" }]
    expenses := [] }

/-! ### Theorems -/

theorem expenseSum_nil (tid : Nat) : expenseSum [] tid = 0 := rfl

theorem expenseSum_cons (e : ExpenseRow) (es : List ExpenseRow) (tid : Nat) :
    expenseSum (e :: es) tid =
      (if e.trip_id == tid then e.amount else 0) + expenseSum es tid := by
  by_cases h : e.trip_id == tid <;> simp [expenseSum, List.filter_cons, h]

theorem expenseSum_append (l1 l2 : List ExpenseRow) (tid : Nat) :
    expenseSum (l1 ++ l2) tid = expenseSum l1 tid + expenseSum l2 tid := by
  simp [expenseSum, List.filter_append]

theorem update_trip_total_expenses_expenses (db : DB) (tid : Nat) :
    (update_trip_total_expenses db tid).expenses = db.expenses := rfl

theorem update_trip_total_expenses_nextId (db : DB) (tid : Nat) :
    (update_trip_total_expenses db tid).nextId = db.nextId := rfl

/-- After the trigger recomputes trip `tid`, the invariant holds globally
provided it already held for every other trip. -/
theorem totalsCorrect_update_trip_total (db : DB) (tid : Nat)
    (h : ∀ t ∈ db.trips, t.id ≠ tid → t.total_expenses = expenseSum db.expenses t.id) :
    TotalsCorrect (update_trip_total_expenses db tid) := by
  intro t ht
  rw [update_trip_total_expenses_expenses]
  have htrips : (update_trip_total_expenses db tid).trips = db.trips.map
      (fun t => if t.id == tid then
        { t with total_expenses := expenseSum db.expenses tid } else t) := rfl
  rw [htrips] at ht
  rcases List.mem_map.mp ht with ⟨t0, ht0, rfl⟩
  by_cases hid : t0.id = tid
  · simp [hid]
  · have hbeq : (t0.id == tid) = false := beq_eq_false_iff_ne.mpr hid
    simp only [hbeq, Bool.false_eq_true, if_false]
    exact h t0 ht0 hid

/-- Updating rows whose id is `eid` (all of which live on trip `tid`) does
not change the expense sum of any other trip. -/
theorem expenseSum_map_update_ne (es : List ExpenseRow) (eid : Nat) (u : ExpenseUpdates)
    (tid t : Nat) (hmem : ∀ e ∈ es, e.id = eid → e.trip_id = tid) (ht : t ≠ tid) :
    expenseSum (es.map (fun e => if e.id == eid then coalesceUpdate u e else e)) t
      = expenseSum es t := by
  induction es with
  | nil => rfl
  | cons e es ih =>
    rw [List.map_cons, expenseSum_cons, expenseSum_cons,
      ih (fun x hx hxe => hmem x (List.mem_cons_of_mem _ hx) hxe)]
    congr 1
    by_cases hid : e.id = eid
    · have htr : e.trip_id = tid := hmem e (List.mem_cons_self e es) hid
      have hnt : (e.trip_id == t) = false := by
        simp [htr]
        exact fun hc => ht hc.symm
      simp [hid, coalesceUpdate, hnt]
    · simp [hid]

/-- Deleting rows whose id is `eid` (all of which live on trip `tid`) does
not change the expense sum of any other trip. -/
theorem expenseSum_filter_out_ne (es : List ExpenseRow) (eid tid t : Nat)
    (hmem : ∀ e ∈ es, e.id = eid → e.trip_id = tid) (ht : t ≠ tid) :
    expenseSum (es.filter (fun e => !(e.id == eid))) t = expenseSum es t := by
  induction es with
  | nil => rfl
  | cons e es ih =>
    have ih2 := ih (fun x hx hxe => hmem x (List.mem_cons_of_mem _ hx) hxe)
    rw [List.filter_cons]
    by_cases hid : e.id = eid
    · have htr : e.trip_id = tid := hmem e (List.mem_cons_self e es) hid
      have hnt : (e.trip_id == t) = false := by
        simp [htr]
        exact fun hc => ht hc.symm
      simp [hid, expenseSum_cons, hnt, ih2]
    · simp [hid, expenseSum_cons, ih2]

/-- All rows sharing the id found by `find?` agree with the found row when
ids are pairwise distinct. -/
theorem eq_of_find?_id (es : List ExpenseRow) (eid : Nat) (e0 : ExpenseRow)
    (hnodup : (es.map (fun e => e.id)).Nodup)
    (hfind : es.find? (fun e => e.id == eid) = some e0) :
    ∀ e ∈ es, e.id = eid → e = e0 := by
  intro e he hid
  have he0 : e0 ∈ es := List.mem_of_find?_eq_some hfind
  have he0id : e0.id = eid := by
    have := List.find?_some hfind
    simpa using this
  exact List.inj_on_of_nodup_map hnodup he he0 (by rw [hid, he0id])

theorem wf_insert_expense (db : DB) (tid uid : Nat) (f : ExpenseFields)
    (h : WF db) : WF (insert_expense db tid uid f) := by
  obtain ⟨hfresh, hnodup, htot⟩ := h
  set row : ExpenseRow :=
    { id := db.nextId, trip_id := tid, user_id := uid, description := f.description,
      amount := f.amount, category := f.category, date := f.date, time := f.time } with hrow
  have hexp : (insert_expense db tid uid f).expenses = db.expenses ++ [row] := rfl
  have hnext : (insert_expense db tid uid f).nextId = db.nextId + 1 := rfl
  refine ⟨?_, ?_, ?_⟩
  · intro e he
    rw [hexp] at he
    rw [hnext]
    rcases List.mem_append.mp he with h1 | h1
    · exact Nat.lt_succ_of_lt (hfresh e h1)
    · rcases List.mem_singleton.mp h1 with rfl
      exact Nat.lt_succ_self _
  · show ((db.expenses ++ [row]).map (fun e => e.id)).Nodup
    rw [List.map_append]
    rw [List.nodup_append]
    refine ⟨hnodup, by simp, ?_⟩
    intro a ha hb
    simp only [List.map_cons, List.map_nil, List.mem_singleton] at hb
    rcases List.mem_map.mp ha with ⟨e, he, rfl⟩
    have h1 := hfresh e he
    have h2 : e.id = db.nextId := by simpa [hrow] using hb
    omega
  · have hdb1 : insert_expense db tid uid f =
        update_trip_total_expenses
          { db with nextId := db.nextId + 1, expenses := db.expenses ++ [row] } tid := rfl
    rw [hdb1]
    apply totalsCorrect_update_trip_total
    intro t ht hne
    show t.total_expenses = expenseSum (db.expenses ++ [row]) t.id
    rw [expenseSum_append, expenseSum_cons, expenseSum_nil]
    have : (row.trip_id == t.id) = false := by
      simp [hrow]
      exact fun hc => hne hc.symm
    rw [this]
    simpa using htot t ht

theorem wf_update_expense_rows (db : DB) (eid : Nat) (u : ExpenseUpdates)
    (h : WF db) : WF (update_expense_rows db eid u) := by
  obtain ⟨hfresh, hnodup, htot⟩ := h
  cases hfind : db.expenses.find? (fun e => e.id == eid) with
  | none =>
    rw [update_expense_rows, hfind]
    exact ⟨hfresh, hnodup, htot⟩
  | some e0 =>
    rw [update_expense_rows, hfind]
    have huniq := eq_of_find?_id db.expenses eid e0 hnodup hfind
    set g : ExpenseRow → ExpenseRow :=
      fun e => if e.id == eid then coalesceUpdate u e else e with hg
    have hgid : ∀ e : ExpenseRow, (g e).id = e.id := by
      intro e
      by_cases he : e.id = eid <;> simp [hg, he, coalesceUpdate]
    refine ⟨?_, ?_, ?_⟩
    · intro e he
      rw [update_trip_total_expenses_expenses] at he
      rw [update_trip_total_expenses_nextId]
      rcases List.mem_map.mp he with ⟨x, hx, rfl⟩
      rw [hgid]
      exact hfresh x hx
    · show (((db.expenses.map g).map (fun e => e.id)).Nodup)
      rw [List.map_map]
      have : (fun e => e.id) ∘ g = fun (e : ExpenseRow) => e.id := by
        funext e
        exact hgid e
      rw [this]
      exact hnodup
    · apply totalsCorrect_update_trip_total
      intro t ht hne
      show t.total_expenses = expenseSum (db.expenses.map g) t.id
      rw [expenseSum_map_update_ne db.expenses eid u e0.trip_id t.id
        (fun e he hid => by rw [huniq e he hid]) hne]
      exact htot t ht

theorem wf_delete_expense_rows (db : DB) (eid : Nat)
    (h : WF db) : WF (delete_expense_rows db eid) := by
  obtain ⟨hfresh, hnodup, htot⟩ := h
  cases hfind : db.expenses.find? (fun e => e.id == eid) with
  | none =>
    rw [delete_expense_rows, hfind]
    exact ⟨hfresh, hnodup, htot⟩
  | some e0 =>
    rw [delete_expense_rows, hfind]
    have huniq := eq_of_find?_id db.expenses eid e0 hnodup hfind
    refine ⟨?_, ?_, ?_⟩
    · intro e he
      rw [update_trip_total_expenses_expenses] at he
      rw [update_trip_total_expenses_nextId]
      exact hfresh e (List.mem_of_mem_filter he)
    · show ((db.expenses.filter (fun e => !(e.id == eid))).map (fun e => e.id)).Nodup
      exact ((List.filter_sublist _).map _).nodup hnodup
    · apply totalsCorrect_update_trip_total
      intro t ht hne
      show t.total_expenses =
        expenseSum (db.expenses.filter (fun e => !(e.id == eid))) t.id
      rw [expenseSum_filter_out_ne db.expenses eid e0.trip_id t.id
        (fun e he hid => by rw [huniq e he hid]) hne]
      exact htot t ht

theorem wf_applyMutation (db : DB) (m : Mutation) (h : WF db) :
    WF (applyMutation db m) := by
  cases m with
  | insert tid uid f => exact wf_insert_expense db tid uid f h
  | update eid u => exact wf_update_expense_rows db eid u h
  | delete eid => exact wf_delete_expense_rows db eid h

theorem wf_applyMutations (db : DB) (ms : List Mutation) (h : WF db) :
    WF (applyMutations db ms) := by
  induction ms generalizing db with
  | nil => exact h
  | cons m ms ih => exact ih (applyMutation db m) (wf_applyMutation db m h)

/-- C1: for every trip and every settled sequence of expense
insert/update/delete mutations, the trip's persisted total equals the sum of
the amounts of the expense rows whose `trip_id` is that trip's id (0 when
the trip has no expense rows), independent of the order of the mutations. -/
theorem trip_total_eq_expense_sum_after_mutations (db : DB) (ms : List Mutation)
    (h : WF db) :
    ∀ t ∈ (applyMutations db ms).trips,
      t.total_expenses = expenseSum (applyMutations db ms).expenses t.id ∧
      ((applyMutations db ms).expenses.filter (fun e => e.trip_id == t.id) = [] →
        t.total_expenses = 0) := by
  intro t ht
  have htot := (wf_applyMutations db ms h).2.2 t ht
  refine ⟨htot, ?_⟩
  intro hempty
  rw [htot, expenseSum, hempty]
  rfl

/-- Witness for C1 at a concrete trip and mutation sequence. -/
theorem trip_total_eq_expense_sum_after_mutations_witness :
    WF dbC1 ∧
      ∀ t ∈ (applyMutations dbC1 msC1).trips,
        t.total_expenses = expenseSum (applyMutations dbC1 msC1).expenses t.id ∧
        ((applyMutations dbC1 msC1).expenses.filter (fun e => e.trip_id == t.id) = [] →
          t.total_expenses = 0) :=
  ⟨by decide, trip_total_eq_expense_sum_after_mutations dbC1 msC1 (by decide)⟩

/-- C2 counterexample: when the generated placeholder id collides with an
id already present in the trip's in-memory expense list (two adds in the
same millisecond share one `temp-` id), the rollback filter removes both
records, so the post-rollback expense list differs from the pre-add list. -/
theorem addExpense_rollback_not_exact_on_temp_id_collision :
    (addExpenseRollback tempC2.id tempC2.amount
        (addExpenseOptimistic tempC2 "2024-01-01T10:00:01Z" tripC2)).expenses
      ≠ tripC2.expenses := by
  decide

/-- C2 amended: provided the placeholder id does not collide with any id
already in the trip's expense list, a failed add's rollback restores the
in-memory expense list and the total exactly to their pre-add values. -/
theorem addExpense_rollback_exact (trip : Trip) (temp : Expense) (now : String)
    (hfresh : ∀ e ∈ trip.expenses, e.id ≠ temp.id) :
    (addExpenseRollback temp.id temp.amount
        (addExpenseOptimistic temp now trip)).expenses = trip.expenses ∧
    (addExpenseRollback temp.id temp.amount
        (addExpenseOptimistic temp now trip)).totalExpenses = trip.totalExpenses := by
  constructor
  · show (trip.expenses ++ [temp]).filter (fun exp => !(exp.id == temp.id))
      = trip.expenses
    rw [List.filter_append]
    have h1 : trip.expenses.filter (fun exp => !(exp.id == temp.id)) = trip.expenses :=
      List.filter_eq_self.mpr (fun e he => by simpa using hfresh e he)
    have h2 : ([temp] : List Expense).filter (fun exp => !(exp.id == temp.id)) = [] := by
      simp
    rw [h1, h2, List.append_nil]
  · show trip.totalExpenses + temp.amount - temp.amount = trip.totalExpenses
    ring

/-- Witness for the amended C2 at a concrete trip and fresh placeholder. -/
theorem addExpense_rollback_exact_witness :
    (∀ e ∈ tripC2.expenses, e.id ≠ tempC2fresh.id) ∧
    ((addExpenseRollback tempC2fresh.id tempC2fresh.amount
        (addExpenseOptimistic tempC2fresh "2024-01-01T10:00:01Z" tripC2)).expenses
          = tripC2.expenses ∧
     (addExpenseRollback tempC2fresh.id tempC2fresh.amount
        (addExpenseOptimistic tempC2fresh "2024-01-01T10:00:01Z" tripC2)).totalExpenses
          = tripC2.totalExpenses) :=
  ⟨by decide,
   addExpense_rollback_exact tripC2 tempC2fresh "2024-01-01T10:00:01Z" (by decide)⟩

/-- C3: when an update fails after the optimistic apply, restoring the
captured pre-mutation record and the captured pre-mutation total leaves the
expense list (hence every field of the mutated expense) and the trip total
exactly at their pre-mutation values, whatever amount delta was applied
optimistically. -/
theorem updateExpense_rollback_exact (trip : Trip) (expenseId : String)
    (u : ExpenseUpdates) (orig : Expense) (now : String)
    (hmem : orig ∈ trip.expenses) (hid : orig.id = expenseId)
    (huniq : ∀ e ∈ trip.expenses, e.id = expenseId → e = orig) :
    (updateExpenseRollback expenseId orig trip.totalExpenses
        (updateExpenseOptimistic expenseId u (u.amount.getD orig.amount - orig.amount)
          now trip)).expenses = trip.expenses ∧
    (updateExpenseRollback expenseId orig trip.totalExpenses
        (updateExpenseOptimistic expenseId u (u.amount.getD orig.amount - orig.amount)
          now trip)).totalExpenses = trip.totalExpenses := by
  refine ⟨?_, rfl⟩
  show ((trip.expenses.map (fun exp =>
      if exp.id == expenseId then spreadUpdates u exp else exp)).map (fun exp =>
      if exp.id == expenseId then orig else exp)) = trip.expenses
  rw [List.map_map]
  refine (List.map_congr_left ?_).trans (List.map_id _)
  intro e he
  by_cases h : e.id = expenseId
  · have h1 : (e.id == expenseId) = true := beq_iff_eq.mpr h
    have h2 : ((spreadUpdates u e).id == expenseId) = true := by
      have : (spreadUpdates u e).id = e.id := rfl
      rw [this]
      exact h1
    simp only [Function.comp_apply, h1, if_true, h2]
    exact (huniq e he h).symm
  · have h1 : (e.id == expenseId) = false := beq_eq_false_iff_ne.mpr h
    simp only [Function.comp_apply, h1, Bool.false_eq_true, if_false]
    rfl

/-- Witness for C3 at a concrete trip, target expense and amount change. -/
theorem updateExpense_rollback_exact_witness :
    (origC3 ∈ tripC3.expenses ∧ origC3.id = "e1" ∧
      (∀ e ∈ tripC3.expenses, e.id = "e1" → e = origC3)) ∧
    ((updateExpenseRollback "e1" origC3 tripC3.totalExpenses
        (updateExpenseOptimistic "e1" updC3
          (updC3.amount.getD origC3.amount - origC3.amount) "u2" tripC3)).expenses
          = tripC3.expenses ∧
     (updateExpenseRollback "e1" origC3 tripC3.totalExpenses
        (updateExpenseOptimistic "e1" updC3
          (updC3.amount.getD origC3.amount - origC3.amount) "u2" tripC3)).totalExpenses
          = tripC3.totalExpenses) :=
  ⟨⟨by decide, by decide, by decide⟩,
   updateExpense_rollback_exact tripC3 "e1" updC3 origC3 "u2"
     (by decide) (by decide) (by decide)⟩

/-- C4 counterexample: the deduplication window is `CACHE_TIMEOUT`
(1000 ms after issuance), not "until the first call completes": the cleanup
timer removes the cache entry unconditionally, so an identical add issued at
t = 0 and still in flight at t = 1500 is issued a second time by the
duplicate call — two durable operations for one logical mutation. -/
theorem duplicate_call_reissued_after_cache_window :
    ((cachedCall (cachedCall stC4 (addCacheKey "trip-1" "payload") 0).2
        (addCacheKey "trip-1" "payload") 1500).2).issued.length = 2 := by
  decide

/-- C4 amended: a duplicate call bearing the same cache key that arrives
within `CACHE_TIMEOUT` of the first call's issuance receives the first
call's pending operation and issues nothing new (exactly one durable
effect); beyond that window deduplication is not provided, even while the
first call is still in flight. -/
theorem duplicate_call_within_window_deduplicated (st : CacheState) (key : String)
    (t1 t2 : Nat) (hmiss : cacheLookup st key t1 = none)
    (h2 : t2 < t1 + CACHE_TIMEOUT) :
    cachedCall (cachedCall st key t1).2 key t2
      = ((cachedCall st key t1).1, (cachedCall st key t1).2) := by
  have h1 : cachedCall st key t1 =
      (st.nextOpId,
        { entries := { key := key, opId := st.nextOpId, expiry := t1 + CACHE_TIMEOUT }
            :: st.entries
          nextOpId := st.nextOpId + 1
          issued := st.issued ++ [st.nextOpId] }) := by
    rw [cachedCall, hmiss]
  rw [h1]
  have h3 : cacheLookup
      { entries := { key := key, opId := st.nextOpId, expiry := t1 + CACHE_TIMEOUT }
          :: st.entries
        nextOpId := st.nextOpId + 1
        issued := st.issued ++ [st.nextOpId] } key t2 = some st.nextOpId := by
    rw [cacheLookup]
    rw [List.find?_cons]
    simp [h2]
  rw [cachedCall, h3]

/-- Witness for the amended C4: a duplicate call 500 ms after the first. -/
theorem duplicate_call_within_window_deduplicated_witness :
    (cacheLookup stC4 (addCacheKey "trip-1" "payload") 0 = none ∧
      500 < 0 + CACHE_TIMEOUT) ∧
    cachedCall (cachedCall stC4 (addCacheKey "trip-1" "payload") 0).2
        (addCacheKey "trip-1" "payload") 500
      = ((cachedCall stC4 (addCacheKey "trip-1" "payload") 0).1,
         (cachedCall stC4 (addCacheKey "trip-1" "payload") 0).2) :=
  ⟨⟨by decide, by decide⟩,
   duplicate_call_within_window_deduplicated stC4 (addCacheKey "trip-1" "payload")
     0 500 (by decide) (by decide)⟩

/-- C7: for add, update and delete alike, an RPC failure triggers exactly
one fallback to the manual path, whose outcome (success or error) is
returned to the caller unchanged — a failing fallback escalates rather than
being retried or suppressed — and a successful RPC never invokes the manual
path. -/
theorem rpc_failure_falls_back_once_then_escalates
    (e ma mu m1 m2 tid : String) (exp : ExpenseFields)
    (ra : AddExpenseResult) (ru : UpdateExpenseResult) (rd : DeleteExpenseResult)
    (ins : Except String Expense) (upd : Except String (Expense × String))
    (fr : Except String String) (dr : Except String Unit)
    (tr : Except String ℚ) :
    (addExpenseOptimized (.error e) exp ins tr = (addExpenseManual exp ins tr, 1)) ∧
    (addExpenseOptimized (.ok ra) exp ins tr = (.ok ra, 0)) ∧
    (addExpenseOptimized (.error e) exp (.error ma) tr
      = (.error ("Failed to add expense: " ++ ma), 1)) ∧
    (updateExpenseOptimized (.error e) upd tr = (updateExpenseManual upd tr, 1)) ∧
    (updateExpenseOptimized (.ok ru) upd tr = (.ok ru, 0)) ∧
    (updateExpenseOptimized (.error e) (.error mu) tr
      = (.error ("Failed to update expense: " ++ mu), 1)) ∧
    (deleteExpenseOptimized (.error e) fr dr tr = (deleteExpenseManual fr dr tr, 1)) ∧
    (deleteExpenseOptimized (.ok rd) fr dr tr = (.ok rd, 0)) ∧
    (deleteExpenseOptimized (.error e) (.error m1) dr tr
      = (.error ("Failed to fetch expense details: " ++ m1), 1)) ∧
    (deleteExpenseOptimized (.error e) (.ok tid) (.error m2) tr
      = (.error ("Failed to delete expense: " ++ m2), 1)) :=
  ⟨rfl, rfl, rfl, rfl, rfl, rfl, rfl, rfl, rfl, rfl⟩

/-- C10: in each manual fallback path, when the mutation round trip
succeeds but the follow-up read of the trip's stored total fails, the
operation still resolves successfully and reports a fabricated total — the
payload's own amount for an add, the updated row's amount for an update,
and 0 for a delete. -/
theorem manual_paths_fabricate_total_on_read_failure
    (exp : ExpenseFields) (row : Expense) (tid e1 e2 e3 : String) :
    addExpenseManual exp (.ok row) (.error e1)
      = .ok { expense := row, newTotal := exp.amount } ∧
    updateExpenseManual (.ok (row, tid)) (.error e2)
      = .ok { expense := row, newTotal := row.amount, tripId := tid } ∧
    deleteExpenseManual (.ok tid) (.ok ()) (.error e3)
      = .ok { newTotal := 0, tripId := tid } :=
  ⟨rfl, rfl, rfl⟩

/-- C8 (code bug): `generate_trip_number` computes `COUNT(*) + 1` over the
user's surviving trips, so a deletion makes it reuse an already-assigned
number: user 7 creates TR001 and TR002, deletes TR001, creates again — the
new trip is numbered TR002, colliding with (and not greater than) the
user's existing trip number. -/
theorem trip_number_reused_after_delete :
    dbC8final.trips.map (fun t => t.trip_number) = ["TR002", "TR002"] ∧
    dbC8final.trips.map (fun t => t.user_id) = [7, 7] := by
  decide

/-- C9 counterexample: `updateTrip` accepts a status update moving a
completed trip back to planning — a backward transition in the lifecycle
order. -/
theorem updateTrip_accepts_backward_status_transition :
    dbC9.trips.map (fun t => t.status) = ["completed"] ∧
    (updateTrip dbC9 7 1 uC9).map (fun db2 => db2.trips.map (fun t => t.status))
      = .ok ["planning"] ∧
    statusRank "planning" < statusRank "completed" :=
  ⟨by decide, by rfl, by decide⟩

/-- C9 amended: `updateTrip` performs no transition validation: whenever
the statement passes the status CHECK, the caller's trip row ends up
bearing exactly the requested status — any member of the enumeration,
backward moves included — or its previous status when none is (truthily)
supplied; the stored status always remains inside the enumeration. -/
theorem updateTrip_stores_requested_status (db : DB) (uid tid : Nat)
    (u : TripUpdates) (db2 : DB) (h : updateTrip db uid tid u = .ok db2) :
    ∀ t ∈ db.trips, t.id = tid → t.user_id = uid →
      ∃ t2 ∈ db2.trips, t2.id = t.id ∧
        t2.status = (if truthy u.status then u.status.getD t.status else t.status) ∧
        validStatus t2.status = true := by
  intro t ht hid huid
  rw [updateTrip] at h
  by_cases hall : db.trips.all (fun t =>
      !(t.id == tid && t.user_id == uid) || validStatus (applyTripUpdates u t).status) = true
  · rw [if_pos hall] at h
    have hdb2 : db2 = { db with trips := db.trips.map (fun t =>
        if t.id == tid && t.user_id == uid then applyTripUpdates u t else t) } :=
      (Except.ok.inj h).symm
    have hmatch : (t.id == tid && t.user_id == uid) = true := by
      rw [hid, huid]
      simp
    refine ⟨applyTripUpdates u t, ?_, rfl, rfl, ?_⟩
    · rw [hdb2]
      have : (if t.id == tid && t.user_id == uid then applyTripUpdates u t else t)
          ∈ db.trips.map (fun t =>
            if t.id == tid && t.user_id == uid then applyTripUpdates u t else t) :=
        List.mem_map_of_mem _ ht
      rw [hmatch] at this
      simpa using this
    · have := List.all_eq_true.mp hall t ht
      rw [hmatch] at this
      simpa using this
  · rw [if_neg hall] at h
    exact absurd h (by simp)

/-- Witness for the amended C9: the backward move from `dbC9` is stored. -/
theorem updateTrip_stores_requested_status_witness :
    (updateTrip dbC9 7 1 uC9 = .ok dbC9res) ∧
    ∀ t ∈ dbC9.trips, t.id = 1 → t.user_id = 7 →
      ∃ t2 ∈ dbC9res.trips, t2.id = t.id ∧
        t2.status = (if truthy uC9.status then uC9.status.getD t.status else t.status) ∧
        validStatus t2.status = true :=
  ⟨by rfl, updateTrip_stores_requested_status dbC9 7 1 uC9 dbC9res (by rfl)⟩

/-- After the trigger recomputes trip `tid`, that trip's stored total is
the sum over the (unchanged) expense rows. -/
theorem update_trip_total_expenses_target (db : DB) (tid : Nat) :
    ∀ t ∈ (update_trip_total_expenses db tid).trips, t.id = tid →
      t.total_expenses = expenseSum (update_trip_total_expenses db tid).expenses tid := by
  intro t ht hid
  rw [update_trip_total_expenses_expenses]
  have htrips : (update_trip_total_expenses db tid).trips = db.trips.map
      (fun t => if t.id == tid then
        { t with total_expenses := expenseSum db.expenses tid } else t) := rfl
  rw [htrips] at ht
  rcases List.mem_map.mp ht with ⟨t0, ht0, rfl⟩
  by_cases h : t0.id = tid
  · simp [h]
  · have hbeq : (t0.id == tid) = false := beq_eq_false_iff_ne.mpr h
    rw [hbeq] at hid
    simp only [Bool.false_eq_true, if_false] at hid
    exact absurd hid h

/-- C5: `update_expense_with_total` fails with the not-found error when no
expense with the given id belongs to the caller; on success it stores a
record in which every unsupplied field keeps its previous value (and every
supplied field takes the supplied value), and the owning trip's persisted
total is recomputed as the sum over the post-update expense rows. -/
theorem update_expense_with_total_spec (db : DB) (eid uid : Nat)
    (u : ExpenseUpdates) (hwf : WF db) :
    ((∀ e ∈ db.expenses, ¬(e.id = eid ∧ e.user_id = uid)) →
      update_expense_with_total db eid uid u
        = .error "Expense not found or access denied") ∧
    (∀ e0 ∈ db.expenses, e0.id = eid → e0.user_id = uid →
      ∃ db2 r, update_expense_with_total db eid uid u = .ok (db2, r) ∧
        (∃ e1 ∈ db2.expenses, e1.id = eid ∧
          e1.description = u.description.getD e0.description ∧
          e1.amount = u.amount.getD e0.amount ∧
          e1.category = u.category.getD e0.category ∧
          e1.date = u.date.getD e0.date ∧
          e1.time = u.time.getD e0.time) ∧
        (∀ t ∈ db2.trips, t.id = e0.trip_id →
          t.total_expenses = expenseSum db2.expenses e0.trip_id)) := by
  obtain ⟨hfresh, hnodup, htot⟩ := hwf
  constructor
  · intro hnone
    have hfind : db.expenses.find? (fun e => e.id == eid && e.user_id == uid) = none := by
      rw [List.find?_eq_none]
      intro x hx hpx
      simp only [Bool.and_eq_true, beq_iff_eq] at hpx
      exact hnone x hx hpx
    rw [update_expense_with_total, hfind]
  · intro e0 he0 hid huid
    cases hfind : db.expenses.find? (fun e => e.id == eid && e.user_id == uid) with
    | none =>
      exfalso
      have := List.find?_eq_none.mp hfind e0 he0
      apply this
      simp [hid, huid]
    | some ef =>
      have hefmem : ef ∈ db.expenses := List.mem_of_find?_eq_some hfind
      have hefp := List.find?_some hfind
      simp only [Bool.and_eq_true, beq_iff_eq] at hefp
      obtain rfl : ef = e0 :=
        List.inj_on_of_nodup_map hnodup hefmem he0 (by rw [hefp.1, hid])
      rw [update_expense_with_total, hfind]
      refine ⟨_, _, rfl, ?_, ?_⟩
      · refine ⟨coalesceUpdate u ef, ?_, ?_, rfl, rfl, rfl, rfl, rfl⟩
        · rw [update_trip_total_expenses_expenses]
          have hmm := List.mem_map_of_mem (fun e =>
            if e.id == eid && e.user_id == uid then coalesceUpdate u e else e) he0
          simpa [hid, huid] using hmm
        · show (coalesceUpdate u ef).id = eid
          rw [show (coalesceUpdate u ef).id = ef.id from rfl, hid]
      · intro t ht htid
        exact update_trip_total_expenses_target _ ef.trip_id t ht htid

/-- Witness for C5: updating only the amount of the `dbC5` expense. -/
theorem update_expense_with_total_spec_witness :
    WF dbC5 ∧
    (((∀ e ∈ dbC5.expenses, ¬(e.id = 2 ∧ e.user_id = 7)) →
      update_expense_with_total dbC5 2 7 uC5
        = .error "Expense not found or access denied") ∧
    (∀ e0 ∈ dbC5.expenses, e0.id = 2 → e0.user_id = 7 →
      ∃ db2 r, update_expense_with_total dbC5 2 7 uC5 = .ok (db2, r) ∧
        (∃ e1 ∈ db2.expenses, e1.id = 2 ∧
          e1.description = uC5.description.getD e0.description ∧
          e1.amount = uC5.amount.getD e0.amount ∧
          e1.category = uC5.category.getD e0.category ∧
          e1.date = uC5.date.getD e0.date ∧
          e1.time = uC5.time.getD e0.time) ∧
        (∀ t ∈ db2.trips, t.id = e0.trip_id →
          t.total_expenses = expenseSum db2.expenses e0.trip_id))) := by
  have hwf : WF dbC5 := by
    refine ⟨by decide, by decide, ?_⟩
    intro t ht
    simp only [dbC5, List.mem_singleton] at ht
    subst ht
    show (5 : ℚ) = expenseSum dbC5.expenses 1
    norm_num [dbC5, expenseSum]
  exact ⟨hwf, update_expense_with_total_spec dbC5 2 7 uC5 hwf⟩

/-- The trigger leaves the trip id column untouched. -/
theorem update_trip_total_expenses_trips_ids (db : DB) (tid : Nat) :
    (update_trip_total_expenses db tid).trips.map (fun t => t.id)
      = db.trips.map (fun t => t.id) := by
  have h : (update_trip_total_expenses db tid).trips = db.trips.map
      (fun t => if t.id == tid then
        { t with total_expenses := expenseSum db.expenses tid } else t) := rfl
  rw [h, List.map_map]
  apply List.map_congr_left
  intro t ht
  by_cases hc : t.id = tid <;> simp [Function.comp, hc]

/-- Inserting an expense leaves the trip id column untouched. -/
theorem insert_expense_trips_ids (db : DB) (tid uid : Nat) (f : ExpenseFields) :
    (insert_expense db tid uid f).trips.map (fun t => t.id)
      = db.trips.map (fun t => t.id) :=
  update_trip_total_expenses_trips_ids _ tid

/-- An aborted batch loop stays aborted. -/
theorem batch_fold_error (tid uid : Nat) (rows : List ExpenseFields) (m : String) :
    rows.foldl (batchInsertStep tid uid) (.error m) = .error m := by
  induction rows with
  | nil => rfl
  | cons r rest ih =>
    rw [List.foldl_cons]
    exact ih

/-- A batch containing an invalid row aborts the loop. -/
theorem batch_fold_invalid (tid uid : Nat) :
    ∀ rows : List ExpenseFields, (∃ f ∈ rows, validExpenseFields f = false) →
      ∀ (db : DB) (ins : List ExpenseRow) (n : Nat),
        ∃ m, rows.foldl (batchInsertStep tid uid) (.ok (db, ins, n)) = .error m := by
  intro rows
  induction rows with
  | nil =>
    intro h
    exact absurd h (by simp)
  | cons r rest ih =>
    intro h db ins n
    rw [List.foldl_cons]
    by_cases hr : validExpenseFields r
    · have hstep : batchInsertStep tid uid (.ok (db, ins, n)) r
          = .ok (insert_expense db tid uid r,
              ins ++ [{ id := db.nextId, trip_id := tid, user_id := uid,
                        description := r.description, amount := r.amount,
                        category := r.category, date := r.date, time := r.time }],
              n + 1) := by
        simp [batchInsertStep, hr]
      rw [hstep]
      apply ih
      rcases h with ⟨f, hf, hfv⟩
      rcases List.mem_cons.mp hf with rfl | hf2
      · rw [hfv] at hr
        exact absurd hr (by simp)
      · exact ⟨f, hf2, hfv⟩
    · have hstep : batchInsertStep tid uid (.ok (db, ins, n)) r
          = .error "new row violates check constraint" := by
        simp [batchInsertStep, hr]
      rw [hstep, batch_fold_error]
      exact ⟨_, rfl⟩

/-- A completed batch loop performed one trigger recomputation per row,
inserted one expense per row, preserved well-formedness and left the trip
id column untouched. -/
theorem batch_fold_ok (tid uid : Nat) :
    ∀ (rows : List ExpenseFields) (db : DB) (ins : List ExpenseRow) (n : Nat)
      (db2 : DB) (ins2 : List ExpenseRow) (n2 : Nat),
      rows.foldl (batchInsertStep tid uid) (.ok (db, ins, n)) = .ok (db2, ins2, n2) →
      n2 = n + rows.length ∧ ins2.length = ins.length + rows.length ∧
      (WF db → WF db2) ∧
      db2.trips.map (fun t => t.id) = db.trips.map (fun t => t.id) := by
  intro rows
  induction rows with
  | nil =>
    intro db ins n db2 ins2 n2 h
    have h1 := Except.ok.inj h
    simp only [Prod.mk.injEq] at h1
    obtain ⟨rfl, rfl, rfl⟩ := h1
    exact ⟨rfl, rfl, fun hwf => hwf, rfl⟩
  | cons r rest ih =>
    intro db ins n db2 ins2 n2 h
    rw [List.foldl_cons] at h
    by_cases hr : validExpenseFields r
    · have hstep : batchInsertStep tid uid (.ok (db, ins, n)) r
          = .ok (insert_expense db tid uid r,
              ins ++ [{ id := db.nextId, trip_id := tid, user_id := uid,
                        description := r.description, amount := r.amount,
                        category := r.category, date := r.date, time := r.time }],
              n + 1) := by
        simp [batchInsertStep, hr]
      rw [hstep] at h
      obtain ⟨ha, hb, hc, hd⟩ := ih _ _ _ _ _ _ h
      refine ⟨by simp [ha]; omega, ?_, ?_, ?_⟩
      · rw [hb]
        simp [List.length_append]
        omega
      · intro hwf
        exact hc (wf_insert_expense db tid uid r hwf)
      · rw [hd, insert_expense_trips_ids]
    · have hstep : batchInsertStep tid uid (.ok (db, ins, n)) r
          = .error "new row violates check constraint" := by
        simp [batchInsertStep, hr]
      rw [hstep, batch_fold_error] at h
      exact absurd h (by simp)

/-- C6 counterexample: a successful two-row batch fires the total
recomputation trigger twice — once per inserted row — not once at the end
as the claim states. -/
theorem batch_add_expenses_two_recomputations :
    batchRecomputations (batch_add_expenses dbC6 1 7 rowsC6) = 2 := by
  decide

/-- C6 amended: `batch_add_expenses` runs in one transaction and is
all-or-nothing — a batch containing any row failing validation is rejected
as a whole with an error and no post-state, so zero rows persist and the
trip total is untouched; on success every row is inserted, the trigger has
recomputed the trip total once per row (rather than once per batch), and the
single final read returns the trip's recomputed total, which equals the sum
of the trip's expense rows. -/
theorem batch_add_expenses_atomic (db : DB) (tid uid : Nat)
    (rows : List ExpenseFields) (hwf : WF db) :
    ((∃ f ∈ rows, validExpenseFields f = false) →
      ∃ m, batch_add_expenses db tid uid rows = .error m) ∧
    (∀ db2 ins tot n, batch_add_expenses db tid uid rows = .ok (db2, ins, tot, n) →
      n = rows.length ∧ ins.length = rows.length ∧ WF db2 ∧
      tot = some (expenseSum db2.expenses tid) ∧
      ∀ t ∈ db2.trips, t.id = tid → t.total_expenses = expenseSum db2.expenses tid) := by
  constructor
  · intro hinv
    rw [batch_add_expenses]
    by_cases hpre : (db.trips.find? (fun t => t.id == tid && t.user_id == uid)).isSome
    · rw [if_pos hpre]
      obtain ⟨m, hm⟩ := batch_fold_invalid tid uid rows hinv db [] 0
      rw [hm]
      exact ⟨m, rfl⟩
    · rw [if_neg hpre]
      exact ⟨_, rfl⟩
  · intro db2 ins tot n h
    rw [batch_add_expenses] at h
    by_cases hpre : (db.trips.find? (fun t => t.id == tid && t.user_id == uid)).isSome
    · rw [if_pos hpre] at h
      cases hfold : rows.foldl (batchInsertStep tid uid) (.ok (db, [], 0)) with
      | error m =>
        rw [hfold] at h
        exact absurd h (by simp)
      | ok acc =>
        obtain ⟨dbf, insf, nf⟩ := acc
        rw [hfold] at h
        have h1 := Except.ok.inj h
        simp only [Prod.mk.injEq] at h1
        obtain ⟨rfl, rfl, rfl, rfl⟩ := h1
        obtain ⟨ha, hb, hc, hd⟩ := batch_fold_ok tid uid rows db [] 0 dbf insf nf hfold
        have hwf2 : WF dbf := hc hwf
        have hex : ∃ t2 ∈ dbf.trips, (t2.id == tid) = true := by
          obtain ⟨t0, ht0, hp0⟩ := List.find?_isSome.mp hpre
          simp only [Bool.and_eq_true, beq_iff_eq] at hp0
          have hmem : t0.id ∈ db.trips.map (fun t => t.id) :=
            List.mem_map_of_mem _ ht0
          rw [← hd] at hmem
          rcases List.mem_map.mp hmem with ⟨t2, ht2, ht2id⟩
          exact ⟨t2, ht2, by rw [beq_iff_eq, ht2id, hp0.1]⟩
        refine ⟨by omega, by simpa using hb, hwf2, ?_, ?_⟩
        · cases hft : dbf.trips.find? (fun t => t.id == tid) with
          | none =>
            exfalso
            obtain ⟨t2, ht2, hp2⟩ := hex
            exact List.find?_eq_none.mp hft t2 ht2 hp2
          | some tf =>
            have htfmem : tf ∈ dbf.trips := List.mem_of_find?_eq_some hft
            have htfid : tf.id = tid := by
              have := List.find?_some hft
              simpa using this
            have := hwf2.2.2 tf htfmem
            rw [htfid] at this
            simp [this]
        · intro t ht htid
          have := hwf2.2.2 t ht
          rw [this, htid]
    · rw [if_neg hpre] at h
      exact absurd h (by simp)

/-- Witness for the amended C6: the two-row batch on `dbC6`, and its
rejection when an invalid row is appended. -/
theorem batch_add_expenses_atomic_witness :
    WF dbC6 ∧
    (((∃ f ∈ rowsC6, validExpenseFields f = false) →
      ∃ m, batch_add_expenses dbC6 1 7 rowsC6 = .error m) ∧
    (∀ db2 ins tot n, batch_add_expenses dbC6 1 7 rowsC6 = .ok (db2, ins, tot, n) →
      n = rowsC6.length ∧ ins.length = rowsC6.length ∧ WF db2 ∧
      tot = some (expenseSum db2.expenses 1) ∧
      ∀ t ∈ db2.trips, t.id = 1 → t.total_expenses = expenseSum db2.expenses 1)) :=
  ⟨by decide, batch_add_expenses_atomic dbC6 1 7 rowsC6 (by decide)⟩

end Safarnama
